import Mathlib

/-!
Shallow embedding of the BitcoinCharts repository: the `/api/rainbow` proxy
route (src/app/api/rainbow/route.ts) and the several versions of the
`RainbowChart` component (src/app/rainbow/rainbow-chart.tsx and the unnamed
source parts).  JavaScript numbers are modelled as rationals; the
transcendental functions `Math.log` and `Math.exp` are abstract parameters
`lg ex : ℚ → ℚ` of every definition that uses them, so every definition is
executable on concrete inputs.
-/

namespace Rainbow

/-- Epsilon used by the chart versions so that values fed to the log axis are
never 0 (constant `EPS = 1e-9` in the source). -/
def EPS : ℚ := 1e-9

/-- Milliseconds per day, `1000 * 60 * 60 * 24` in the source. -/
def DAY_MS : ℚ := 1000 * 60 * 60 * 24

/-- The fixed table of 9 band multipliers (`BAND_MULTIPLIERS` in the source). -/
def BAND_MULTIPLIERS : List ℚ := [0.25, 0.4, 0.65, 1.0, 1.6, 2.6, 4.2, 6.8, 11.0]

/-! Calendar arithmetic modelling the JavaScript `Date` UTC behaviour
(proleptic Gregorian calendar, days counted from the Unix epoch). -/

/-- Days from the civil date `(y, m, d)` to 1970-01-01, proleptic Gregorian
(the computation performed by `Date.UTC(y, m - 1, d)` divided by a day). -/
def daysFromCivil (y : ℤ) (m d : ℤ) : ℤ :=
  let y2 : ℤ := y - (if m ≤ 2 then 1 else 0)
  let era : ℤ := y2.fdiv 400
  let yoe : ℤ := y2 - era * 400
  let doy : ℤ := ((153 * (m + (if 2 < m then -3 else 9)) + 2).fdiv 5) + d - 1
  let doe : ℤ := yoe * 365 + yoe.fdiv 4 - yoe.fdiv 100 + doy
  era * 146097 + doe - 719468

/-- Civil date `(y, m, d)` of the day `z` days after 1970-01-01. -/
def civilFromDays (z : ℤ) : ℤ × ℤ × ℤ :=
  let z2 : ℤ := z + 719468
  let era : ℤ := z2.fdiv 146097
  let doe : ℤ := z2 - era * 146097
  let yoe : ℤ := (doe - doe.fdiv 1460 + doe.fdiv 36524 - doe.fdiv 146096).fdiv 365
  let y : ℤ := yoe + era * 400
  let doy : ℤ := doe - (365 * yoe + yoe.fdiv 4 - yoe.fdiv 100)
  let mp : ℤ := (5 * doy + 2).fdiv 153
  let d : ℤ := doy - (153 * mp + 2).fdiv 5 + 1
  let m : ℤ := mp + (if mp < 10 then 3 else -9)
  (y + (if m ≤ 2 then 1 else 0), m, d)

/-- Decimal digits of `n` left-padded with zeros to width `w`. -/
def padNum (w n : ℕ) : String :=
  let s := toString n
  String.mk (List.replicate (w - s.length) '0') ++ s

/-- Model of `new Date(ms).toISOString()` for UTC years in `0..9999`
(format `YYYY-MM-DDTHH:mm:ss.sssZ`). -/
def isoString (ms : ℤ) : String :=
  let day : ℤ := ms.fdiv 86400000
  let msod : ℕ := (ms - day * 86400000).toNat
  let c := civilFromDays day
  padNum 4 c.1.toNat ++ "-" ++ padNum 2 c.2.1.toNat ++ "-" ++ padNum 2 c.2.2.toNat ++
    "T" ++ padNum 2 (msod / 3600000) ++ ":" ++ padNum 2 (msod / 60000 % 60) ++ ":" ++
    padNum 2 (msod / 1000 % 60) ++ "." ++ padNum 3 (msod % 1000) ++ "Z"

/-- Floor of a rational, computed from its reduced numerator and
denominator. -/
def qfloor (q : ℚ) : ℤ := q.num.fdiv q.den

/-- Truncation toward zero, the coercion a JavaScript `Date` applies to a
fractional millisecond time value. -/
def qtrunc (q : ℚ) : ℤ :=
  if 0 ≤ q then qfloor q else -qfloor (-q)

/-- Seconds-vs-milliseconds normalization from the source (`toMs`): values
below 10,000,000,000 are seconds, larger values are already milliseconds. -/
def toMs (ts : ℚ) : ℚ :=
  if ts < 10000000000 then ts * 1000 else ts

/-- Date label of a raw timestamp (`toDateLabel` in the source):
`new Date(ms).toISOString().slice(0, 10)` after the seconds/ms heuristic. -/
def toDateLabel (ts : ℚ) : String :=
  (isoString (qtrunc (toMs ts))).take 10

/-- Constant `BITCOIN_GENESIS_MS = Date.UTC(2009, 0, 3)` from the final
chart version. -/
def BITCOIN_GENESIS_MS : ℚ := ((86400000 * daysFromCivil 2009 1 3 : ℤ) : ℚ)

/-- Constant `CHART_END_MS = Date.UTC(2028, 0, 1)` from the final chart
version. -/
def CHART_END_MS : ℚ := ((86400000 * daysFromCivil 2028 1 1 : ℤ) : ℚ)

/-- Constant `CHART_START_DATE` from the final chart version. -/
def CHART_START_DATE : String := "2012-01-01"

/-! Normalization of the upstream payload. -/

/-- An element of the upstream `data.price` array as the chart sees it:
whether it passes the `isRecord` test, and the `timestamp` and `price`
fields, recorded as `some q` exactly when the field holds a number `q`
(a missing field and a non-number field are both not numbers). -/
structure RawItem where
  isObj : Bool
  timestamp : Option ℚ
  price : Option ℚ
deriving DecidableEq

/-- A parsed price point `{ ts, price }`. -/
structure PricePoint where
  ts : ℚ
  price : ℚ
deriving DecidableEq

/-- The per-item filter of the normalization loop: skip non-records, skip
items whose `timestamp` or `price` is not a number, skip non-positive
prices. -/
def parsePoint (it : RawItem) : Option PricePoint :=
  if it.isObj = false then none
  else
    match it.timestamp, it.price with
    | some ts, some v => if v ≤ 0 then none else some ⟨ts, v⟩
    | some _, none => none
    | none, _ => none

/-- Boolean comparison used to model `points.sort((a, b) => a.ts - b.ts)`. -/
def tsLe (p q : PricePoint) : Bool := decide (p.ts ≤ q.ts)

/-- The normalization pipeline: filter the upstream array item by item, then
sort ascending by timestamp. -/
def parsePoints (items : List RawItem) : List PricePoint :=
  (items.filterMap parsePoint).mergeSort tsLe

/-- Timestamp of the first (earliest) parsed point, `points[0]?.ts` with 0 for
the missing case. -/
def firstTs (pts : List PricePoint) : ℚ :=
  ((pts.head?).map fun p => p.ts).getD 0

/-- Truthiness test `!t0` on `t0 = points[0]?.ts` guarding the
"No hay datos de precio" error: true when the list is empty (undefined) and
also when the first timestamp is the number 0. -/
def noPriceData (pts : List PricePoint) : Bool :=
  match pts.head? with
  | none => true
  | some p => decide (p.ts = 0)

/-! Ordinary least squares fit, as written in every chart version. -/

/-- Fold of `arr.reduce((acc, v) => acc + v, 0)`. -/
def sumQ (l : List ℚ) : ℚ := l.foldl (fun acc v => acc + v) 0

/-- Fold of `xs.reduce((acc, v, i) => acc + v * ys[i], 0)` (the two lists are
built in lockstep, so pairing them is the indexed access). -/
def sumProd (xs ys : List ℚ) : ℚ :=
  (xs.zip ys).foldl (fun acc p => acc + p.1 * p.2) 0

/-- Denominator `n * sumXX - sumX * sumX` of the slope. -/
def fitDenom (xs : List ℚ) : ℚ :=
  (xs.length : ℚ) * sumQ (xs.map fun v => v * v) - sumQ xs * sumQ xs

/-- Slope `b` of the regression, with the source's `denom === 0` guard. -/
def fitSlope (xs ys : List ℚ) : ℚ :=
  let denom := fitDenom xs
  if denom = 0 then 0
  else ((xs.length : ℚ) * sumProd xs ys - sumQ xs * sumQ ys) / denom

/-- Intercept `a` of the regression, with the source's `n === 0` guard. -/
def fitIntercept (xs ys : List ℚ) : ℚ :=
  if (xs.length : ℚ) = 0 then 0
  else (sumQ ys - fitSlope xs ys * sumQ xs) / (xs.length : ℚ)

/-- The `y` values `ln(price)` collected by every regression version. -/
def logYs (lg : ℚ → ℚ) (pts : List PricePoint) : List ℚ :=
  pts.map fun p => lg p.price

/-- The `x` values of the log-linear versions: days since the first
timestamp. -/
def linXs (t0 : ℚ) (pts : List PricePoint) : List ℚ :=
  pts.map fun p => (p.ts - t0) / DAY_MS

/-- The `x` value of the log-power version: `ln(days + 1)` with days counted
from the Bitcoin genesis block and clamped below at 0. -/
def powX (lg : ℚ → ℚ) (tsMs : ℚ) : ℚ :=
  lg (max 0 ((tsMs - BITCOIN_GENESIS_MS) / DAY_MS) + 1)

/-- The `x` values of the log-power version. -/
def powXs (lg : ℚ → ℚ) (pts : List PricePoint) : List ℚ :=
  pts.map fun p => powX lg p.ts

/-- A chart row of the interval-band versions: date label, optional price,
baseline, the 9 absolute zone limits `zone_i`, and the 9 band intervals
`band_i = [lower, upper]`. -/
structure IntervalRow where
  date : String
  price : Option ℚ
  baseline : ℚ
  zones : List ℚ
  bands : List (ℚ × ℚ)
deriving DecidableEq

/-- A chart row of the stacked versions: date label, optional price,
baseline and the 9 numeric `band_i` values. -/
structure StackRow where
  date : String
  price : Option ℚ
  baseline : ℚ
  bands : List ℚ
deriving DecidableEq

/-- Zone limits shared by the interval versions:
`zone_i = Math.max(EPS, baseline * m_i)`. -/
def zonesOf (baseline : ℚ) : List ℚ :=
  BAND_MULTIPLIERS.map fun m => max EPS (baseline * m)

namespace LinInterval

/-- Row builder of the log-linear interval version
(src/app/rainbow/rainbow-chart.tsx, first version): zones, then bands
`band_i = [max(EPS, zone_(i-1)), max(EPS, zone_i)]` with `EPS` as the lower
limit of the bottom band. -/
def mkRow (ex : ℚ → ℚ) (a b t0 : ℚ) (p : PricePoint) : IntervalRow :=
  let days := (p.ts - t0) / DAY_MS
  let baseline := ex (a + b * days)
  let zones := zonesOf baseline
  let bands := (List.range BAND_MULTIPLIERS.length).map fun i =>
    let upper := zones.getD i EPS
    let lower := if i = 0 then EPS else zones.getD (i - 1) EPS
    (max EPS lower, max EPS upper)
  { date := toDateLabel p.ts, price := some p.price, baseline := baseline,
    zones := zones, bands := bands }

/-- Full row list of the log-linear interval version: fit on
(days since first timestamp, ln price), then one row per point. -/
def mergedRows (lg ex : ℚ → ℚ) (pts : List PricePoint) : List IntervalRow :=
  let t0 := firstTs pts
  let xs := linXs t0 pts
  let ys := logYs lg pts
  let b := fitSlope xs ys
  let a := fitIntercept xs ys
  pts.map (mkRow ex a b t0)

end LinInterval

namespace LinStackAbs

/-- Row builder of the log-linear version that stores absolute band values
(src/app/rainbow/rainbow-chart.tsx, second version):
`band_i = baseline * m_i`, no clamping. -/
def mkRow (ex : ℚ → ℚ) (a b t0 : ℚ) (p : PricePoint) : StackRow :=
  let days := (p.ts - t0) / DAY_MS
  let baseline := ex (a + b * days)
  { date := toDateLabel p.ts, price := some p.price, baseline := baseline,
    bands := BAND_MULTIPLIERS.map fun m => baseline * m }

/-- Full row list of the absolute-band stacked version. -/
def mergedRows (lg ex : ℚ → ℚ) (pts : List PricePoint) : List StackRow :=
  let t0 := firstTs pts
  let xs := linXs t0 pts
  let ys := logYs lg pts
  let b := fitSlope xs ys
  let a := fitIntercept xs ys
  pts.map (mkRow ex a b t0)

end LinStackAbs

namespace LinStackLayer

/-- Row builder of the stacked-layer version (src/unnamed/part_003, second
version): layer `band_i = baseline * (m_i - m_(i-1))` with `m_(-1) = 0`. -/
def mkRow (ex : ℚ → ℚ) (a b t0 : ℚ) (p : PricePoint) : StackRow :=
  let days := (p.ts - t0) / DAY_MS
  let baseline := ex (a + b * days)
  { date := toDateLabel p.ts, price := some p.price, baseline := baseline,
    bands := (List.range BAND_MULTIPLIERS.length).map fun i =>
      let m := BAND_MULTIPLIERS.getD i 0
      let prev := if i = 0 then 0 else BAND_MULTIPLIERS.getD (i - 1) 0
      baseline * (m - prev) }

/-- Full row list of the stacked-layer version. -/
def mergedRows (lg ex : ℚ → ℚ) (pts : List PricePoint) : List StackRow :=
  let t0 := firstTs pts
  let xs := linXs t0 pts
  let ys := logYs lg pts
  let b := fitSlope xs ys
  let a := fitIntercept xs ys
  pts.map (mkRow ex a b t0)

end LinStackLayer

namespace PowInterval

/-- Row builder `buildRow` of the final log-power version
(src/unnamed/part_003, first version): bands `band_i = [zone_i, zone_(i+1)]`
for `i < 8`, and a final band `band_8 = [zone_8, max(EPS, zone_8 * 1.35)]`
closing the chart at the top. -/
def buildRow (lg ex : ℚ → ℚ) (a b : ℚ) (tsMs : ℚ) (price : Option ℚ) :
    IntervalRow :=
  let x := powX lg tsMs
  let baseline := ex (a + b * x)
  let zones := zonesOf baseline
  let bandsLow := (List.range (BAND_MULTIPLIERS.length - 1)).map fun i =>
    (max EPS (zones.getD i EPS), max EPS (zones.getD (i + 1) EPS))
  let lastLower := zones.getD (BAND_MULTIPLIERS.length - 1) EPS
  { date := toDateLabel tsMs, price := price, baseline := baseline,
    zones := zones,
    bands := bandsLow ++ [(max EPS lastLower, max EPS (lastLower * 1.35))] }

/-- Timestamps visited by the extension loop
`while (ts <= CHART_END_MS) { push(buildRow(ts)); ts += DAY_MS }`. -/
def extendTimestamps (ts : ℚ) : List ℚ :=
  if h : ts ≤ CHART_END_MS then ts :: extendTimestamps (ts + DAY_MS)
  else []
termination_by (qfloor (CHART_END_MS - ts) + 1).toNat
decreasing_by
  have hf : ∀ r : ℚ, qfloor r = ⌊r⌋ := by
    intro r
    rw [Rat.floor_def, qfloor, Int.fdiv_eq_ediv _ (Int.ofNat_nonneg r.den)]
  have hD : (DAY_MS : ℚ) = ((86400000 : ℤ) : ℚ) := by rw [DAY_MS]; norm_num
  have h1 : qfloor (CHART_END_MS - (ts + DAY_MS)) =
      qfloor (CHART_END_MS - ts) - 86400000 := by
    rw [hf, hf]
    have e : CHART_END_MS - (ts + DAY_MS) =
        (CHART_END_MS - ts) - ((86400000 : ℤ) : ℚ) := by
      rw [hD]; ring
    rw [e, Int.floor_sub_int]
  have h2 : 0 ≤ qfloor (CHART_END_MS - ts) := by
    rw [hf]
    exact Int.floor_nonneg.mpr (by linarith)
  omega

/-- Historical rows of the final version: log-power fit, then one row per
point carrying its price. -/
def mergedHist (lg ex : ℚ → ℚ) (pts : List PricePoint) : List IntervalRow :=
  let xs := powXs lg pts
  let ys := logYs lg pts
  let b := fitSlope xs ys
  let a := fitIntercept xs ys
  pts.map fun p => buildRow lg ex a b p.ts (some p.price)

/-- The complete row list of the final version: historical rows followed by
one synthetic (price-less) row per day until `CHART_END_MS`. -/
def mergedAll (lg ex : ℚ → ℚ) (pts : List PricePoint) : List IntervalRow :=
  let xs := powXs lg pts
  let ys := logYs lg pts
  let b := fitSlope xs ys
  let a := fitIntercept xs ys
  let merged := pts.map fun p => buildRow lg ex a b p.ts (some p.price)
  let lastTs := ((pts.getLast?).map fun p => p.ts).getD (firstTs pts)
  if lastTs < CHART_END_MS then
    merged ++ (extendTimestamps (lastTs + DAY_MS)).map fun t =>
      buildRow lg ex a b t none
  else merged

/-- Display filter of the final version: keep rows whose date label is on or
after `CHART_START_DATE`. -/
def allRows (rows : List IntervalRow) : List IntervalRow :=
  rows.filter fun r => decide (CHART_START_DATE ≤ r.date)

end PowInterval

/-- Zone formula stated by the specification: the i-th zone limit is the
baseline times the i-th table multiplier, clamped below at `EPS`. -/
def zoneSpec (B : ℚ) (i : ℕ) : ℚ := max EPS (B * BAND_MULTIPLIERS.getD i 0)

/-! Range selection shared by the versions with a 1y / 2y / all selector. -/

/-- The range selector state. -/
inductive ChartRange where
  | oneY
  | twoY
  | all
deriving DecidableEq

/-- The `filteredRows` memo: return everything when there is no data or the
range is `all`, otherwise slice off everything but the last 365 or 730
rows. -/
def filteredRows {α : Type} (rows : List α) (range : ChartRange) : List α :=
  if rows.length = 0 then rows
  else
    match range with
    | .all => rows
    | .oneY =>
      let days := 365
      rows.drop (if days < rows.length then rows.length - days else 0)
    | .twoY =>
      let days := 730
      rows.drop (if days < rows.length then rows.length - days else 0)

/-! The proxy endpoint src/app/api/rainbow/route.ts.  The single upstream
fetch is modelled as an oracle from the forwarded query parameters to an
upstream outcome; the handler also returns the list of fetches it
performed. -/

namespace Proxy

/-- Outcome of `await fetch(url)` followed by `await res.json()`: a parsed
JSON body on OK, a non-OK HTTP status, or an exception (network failure or
invalid JSON). -/
inductive UpstreamResult (α : Type) where
  | ok (body : α)
  | httpError (status : ℕ)
  | thrown (err : String)
deriving DecidableEq

/-- Response body produced by the handler: the upstream JSON relayed
unchanged, or one of the two JSON error bodies. -/
inductive RouteBody (α : Type) where
  | relayed (data : α)
  | upstreamError (status : ℕ)
  | fetchFailed (details : String)
deriving DecidableEq

/-- An HTTP response from the handler: status, JSON body, and the
Cache-Control header when one is set. -/
structure RouteResponse (α : Type) where
  status : ℕ
  body : RouteBody α
  cacheControl : Option String
deriving DecidableEq

/-- The `revalidate = 3600` constant. -/
def revalidate : ℕ := 3600

/-- The Cache-Control header value set on success. -/
def cacheControlValue : String :=
  "public, s-maxage=" ++ toString revalidate ++ ", stale-while-revalidate=86400"

/-- Incoming query string, with `some`/`none` for present/absent
parameters. -/
structure Query where
  interval : Option String
  timespan : Option String
  limit : Option String
deriving DecidableEq

/-- The three parameters set on the upstream URL, with the `?? "daily"`,
`?? "all"`, `?? "5000"` defaults. -/
def upstreamParams (q : Query) : List (String × String) :=
  [("interval", q.interval.getD "daily"),
   ("timespan", q.timespan.getD "all"),
   ("limit", q.limit.getD "5000")]

/-- Dispatch on the single upstream outcome: OK relays the body with the
cache header and status 200, non-OK yields the 502 error body, a thrown
exception yields the 500 error body. -/
def handleUpstream {α : Type} (r : UpstreamResult α) : RouteResponse α :=
  match r with
  | .ok d => ⟨200, .relayed d, some cacheControlValue⟩
  | .httpError s => ⟨502, .upstreamError s, none⟩
  | .thrown e => ⟨500, .fetchFailed e, none⟩

/-- The GET handler: build the three forwarded parameters, perform the one
fetch, dispatch on its outcome.  The second component records every fetch
performed (the body contains exactly one). -/
def GET {α : Type} (q : Query)
    (upstream : List (String × String) → UpstreamResult α) :
    RouteResponse α × List (List (String × String)) :=
  let ps := upstreamParams q
  (handleUpstream (upstream ps), [ps])

end Proxy

/-- Every zone limit is clamped below by `EPS`. -/
lemma eps_le_of_mem_zonesOf {baseline z : ℚ} (h : z ∈ zonesOf baseline) :
    EPS ≤ z := by
  simp only [zonesOf, List.mem_map] at h
  obtain ⟨m, _, rfl⟩ := h
  exact le_max_left _ _

/-- C5: for every incoming request the proxy GET handler forwards exactly
the three query parameters interval, timespan and limit, substituting the
defaults "daily", "all" and "5000" when absent, and on an OK upstream
response relays the upstream JSON body unchanged with a Cache-Control
header set. -/
theorem C5_proxy_forwards {α : Type} (q : Proxy.Query)
    (upstream : List (String × String) → Proxy.UpstreamResult α) :
    (Proxy.GET q upstream).2 =
      [[("interval", q.interval.getD "daily"),
        ("timespan", q.timespan.getD "all"),
        ("limit", q.limit.getD "5000")]] ∧
    ∀ d : α, upstream (Proxy.upstreamParams q) = .ok d →
      (Proxy.GET q upstream).1 =
        ⟨200, .relayed d, some Proxy.cacheControlValue⟩ := by
  refine ⟨rfl, fun d hd => ?_⟩
  simp only [Proxy.GET, hd, Proxy.handleUpstream]

/-- Witness for C5 at a parameterless query and an upstream returning the
body 7. -/
theorem C5_proxy_forwards_witness :
    (fun _ => Proxy.UpstreamResult.ok (7 : ℕ) :
        List (String × String) → Proxy.UpstreamResult ℕ)
      (Proxy.upstreamParams ⟨none, none, none⟩) = .ok 7 ∧
    (Proxy.GET ⟨none, none, none⟩ fun _ => Proxy.UpstreamResult.ok (7 : ℕ)).1 =
      ⟨200, .relayed 7, some Proxy.cacheControlValue⟩ :=
  ⟨rfl, (C5_proxy_forwards ⟨none, none, none⟩
    (fun _ => Proxy.UpstreamResult.ok (7 : ℕ))).2 7 rfl⟩

/-- C6: the handler performs exactly one upstream fetch, returns status 502
with the upstream-error JSON body when the upstream responds non-OK,
returns status 500 with the fetch-failed JSON body when the fetch (or JSON
parse) throws, and returns status 200 in every remaining case. -/
theorem C6_proxy_errors {α : Type} (q : Proxy.Query)
    (upstream : List (String × String) → Proxy.UpstreamResult α) :
    (Proxy.GET q upstream).2.length = 1 ∧
    (∀ s, upstream (Proxy.upstreamParams q) = .httpError s →
      (Proxy.GET q upstream).1.status = 502 ∧
      (Proxy.GET q upstream).1.body = .upstreamError s) ∧
    (∀ e, upstream (Proxy.upstreamParams q) = .thrown e →
      (Proxy.GET q upstream).1.status = 500 ∧
      (Proxy.GET q upstream).1.body = .fetchFailed e) ∧
    (∀ d, upstream (Proxy.upstreamParams q) = .ok d →
      (Proxy.GET q upstream).1.status = 200) := by
  refine ⟨rfl, fun s hs => ?_, fun e he => ?_, fun d hd => ?_⟩
  · simp [Proxy.GET, hs, Proxy.handleUpstream]
  · simp [Proxy.GET, he, Proxy.handleUpstream]
  · simp [Proxy.GET, hd, Proxy.handleUpstream]

/-- Witness for C6 at an upstream that responds with HTTP 404. -/
theorem C6_proxy_errors_witness :
    (fun _ => Proxy.UpstreamResult.httpError 404 :
        List (String × String) → Proxy.UpstreamResult ℕ)
      (Proxy.upstreamParams ⟨none, none, none⟩) = .httpError 404 ∧
    ((@Proxy.GET ℕ ⟨none, none, none⟩
        fun _ => Proxy.UpstreamResult.httpError 404).1.status = 502 ∧
      (@Proxy.GET ℕ ⟨none, none, none⟩
        fun _ => Proxy.UpstreamResult.httpError 404).1.body =
        .upstreamError 404) :=
  ⟨rfl, (C6_proxy_errors ⟨none, none, none⟩
    (fun _ => Proxy.UpstreamResult.httpError 404 :
      List (String × String) → Proxy.UpstreamResult ℕ)).2.1 404 rfl⟩

/-- C7: range selection is a suffix slice that never reorders rows:
selecting all returns the list unchanged, 1y the last min(365, length)
rows, 2y the last min(730, length) rows. -/
theorem C7_range_slice {α : Type} (rows : List α) :
    filteredRows rows .all = rows ∧
    filteredRows rows .oneY = rows.drop (rows.length - min 365 rows.length) ∧
    (filteredRows rows .oneY).length = min 365 rows.length ∧
    filteredRows rows .twoY = rows.drop (rows.length - min 730 rows.length) ∧
    (filteredRows rows .twoY).length = min 730 rows.length ∧
    ∀ r : ChartRange, filteredRows rows r <:+ rows := by
  have key : ∀ d : ℕ, 0 < d →
      (if rows.length = 0 then rows
        else rows.drop (if d < rows.length then rows.length - d else 0)) =
      rows.drop (rows.length - min d rows.length) := by
    intro d hd
    by_cases h0 : rows.length = 0
    · rw [if_pos h0]
      have : rows.length - min d rows.length = 0 := by omega
      rw [this, List.drop_zero]
    · rw [if_neg h0]
      by_cases h1 : d < rows.length
      · rw [if_pos h1]
        congr 1
        omega
      · rw [if_neg h1]
        have : rows.length - min d rows.length = 0 := by omega
        rw [this]
  have h365 : filteredRows rows .oneY =
      rows.drop (rows.length - min 365 rows.length) := key 365 (by omega)
  have h730 : filteredRows rows .twoY =
      rows.drop (rows.length - min 730 rows.length) := key 730 (by omega)
  have hall : filteredRows rows .all = rows := by
    by_cases h0 : rows.length = 0
    · simp [filteredRows, h0]
    · simp [filteredRows, h0]
  refine ⟨hall, h365, ?_, h730, ?_, ?_⟩
  · rw [h365, List.length_drop]; omega
  · rw [h730, List.length_drop]; omega
  · intro r
    cases r
    · rw [h365]; exact List.drop_suffix _ _
    · rw [h730]; exact List.drop_suffix _ _
    · rw [hall]

/-- C9: the no-price-data error fires exactly when the parsed point list is
empty or its first (earliest) timestamp is the number 0, because the guard
tests the truthiness of `points[0]?.ts`. -/
theorem C9_truthy_empty_check (items : List RawItem) :
    noPriceData (parsePoints items) = true ↔
      parsePoints items = [] ∨
      ∃ p l, parsePoints items = p :: l ∧ p.ts = 0 := by
  cases h : parsePoints items with
  | nil => simp [noPriceData]
  | cons p l =>
    simp only [noPriceData, List.head?_cons, decide_eq_true_eq]
    constructor
    · intro hp
      exact Or.inr ⟨p, l, rfl, hp⟩
    · rintro (hc | ⟨p2, l2, he, hts⟩)
      · exact absurd hc (List.cons_ne_nil p l)
      · obtain ⟨rfl, rfl⟩ := List.cons.injEq .. ▸ he
        exact hts

/-- C3: an upstream item contributes a point iff it is a record whose
timestamp field is a number and whose price field is a number strictly
greater than 0; the point list is a permutation of the kept items sorted
ascending by timestamp; and the date label is the first 10 characters of
the ISO string of the timestamp, multiplied by 1000 first when it is below
10,000,000,000. -/
theorem C3_normalize_filter_sort (items : List RawItem) :
    (∀ (it : RawItem) (ts v : ℚ), parsePoint it = some ⟨ts, v⟩ ↔
      it.isObj = true ∧ it.timestamp = some ts ∧ it.price = some v ∧ 0 < v) ∧
    (parsePoints items).Perm (items.filterMap parsePoint) ∧
    (parsePoints items).Pairwise (fun a b => a.ts ≤ b.ts) ∧
    (∀ ts : ℚ, toDateLabel ts =
      (isoString (qtrunc (if ts < 10000000000 then ts * 1000 else ts))).take
        10) := by
  refine ⟨?_, ?_, ?_, fun ts => rfl⟩
  · rintro ⟨o, t, pr⟩ ts v
    cases o
    · simp [parsePoint]
    · cases t with
      | none => simp [parsePoint]
      | some tv =>
        cases pr with
        | none => simp [parsePoint]
        | some pv =>
          by_cases hv : pv ≤ 0
          · simp only [parsePoint, Bool.true_eq_false, if_false, if_pos hv,
              Option.some.injEq, PricePoint.mk.injEq]
            constructor
            · rintro ⟨⟩
            · rintro ⟨_, _, hpv, hpos⟩
              subst hpv
              linarith
          · simp only [parsePoint, Bool.true_eq_false, if_false, if_neg hv,
              Option.some.injEq, PricePoint.mk.injEq]
            constructor
            · rintro ⟨rfl, rfl⟩
              exact ⟨trivial, rfl, rfl, by linarith⟩
            · rintro ⟨_, h1, h2, _⟩
              exact ⟨h1, h2⟩
  · exact List.mergeSort_perm _ _
  · have hs := @List.sorted_mergeSort _ tsLe
      (fun a b c hab hbc => by
        simp only [tsLe, decide_eq_true_eq] at *
        exact le_trans hab hbc)
      (fun a b => by
        simp only [tsLe, Bool.or_eq_true, decide_eq_true_eq]
        exact le_total a.ts b.ts)
      (items.filterMap parsePoint)
    exact hs.imp fun h => of_decide_eq_true h

/-- C8: in the interval-band versions every zone value and both ends of
every band interval are at least `EPS = 1e-9`, whatever value the baseline
takes. -/
theorem C8_log_axis_safety (lg ex : ℚ → ℚ) (a b t0 tsMs : ℚ) (p : PricePoint)
    (pr : Option ℚ) :
    (∀ z ∈ (LinInterval.mkRow ex a b t0 p).zones, EPS ≤ z) ∧
    (∀ bd ∈ (LinInterval.mkRow ex a b t0 p).bands, EPS ≤ bd.1 ∧ EPS ≤ bd.2) ∧
    (∀ z ∈ (PowInterval.buildRow lg ex a b tsMs pr).zones, EPS ≤ z) ∧
    (∀ bd ∈ (PowInterval.buildRow lg ex a b tsMs pr).bands,
      EPS ≤ bd.1 ∧ EPS ≤ bd.2) := by
  refine ⟨fun z hz => ?_, fun bd hbd => ?_, fun z hz => ?_, fun bd hbd => ?_⟩
  · exact eps_le_of_mem_zonesOf hz
  · simp only [LinInterval.mkRow, List.mem_map, List.mem_range] at hbd
    obtain ⟨i, _, rfl⟩ := hbd
    exact ⟨le_max_left _ _, le_max_left _ _⟩
  · exact eps_le_of_mem_zonesOf hz
  · simp only [PowInterval.buildRow, List.mem_append, List.mem_map,
      List.mem_range, List.mem_singleton] at hbd
    rcases hbd with ⟨i, _, rfl⟩ | rfl
    · exact ⟨le_max_left _ _, le_max_left _ _⟩
    · exact ⟨le_max_left _ _, le_max_left _ _⟩

/-- Value of the constant `Date.UTC(2009, 0, 3)`. -/
lemma genesis_ms_eval : BITCOIN_GENESIS_MS = 1230940800000 := by decide

/-- Value of the constant `Date.UTC(2028, 0, 1)`. -/
lemma chart_end_eval : CHART_END_MS = 1830297600000 := by decide

/-- The reduce-based sum agrees with the mathematical list sum. -/
lemma sumQ_eq_sum (l : List ℚ) : sumQ l = l.sum := by
  rw [List.sum_eq_foldl]; rfl

/-- The indexed reduce over two lists agrees with the sum of pairwise
products. -/
lemma sumProd_eq_sum (xs ys : List ℚ) :
    sumProd xs ys = ((xs.zip ys).map fun q => q.1 * q.2).sum := by
  rw [List.sum_eq_foldl, List.foldl_map]; rfl

/-- A nonzero slope denominator forces a nonzero point count. -/
lemma fitDenom_ne_imp_len (xs : List ℚ) (hd : fitDenom xs ≠ 0) :
    (xs.length : ℚ) ≠ 0 := by
  intro hlen
  apply hd
  have hnil : xs = [] := by
    cases xs with
    | nil => rfl
    | cons x l =>
      exfalso
      have hp : (0 : ℚ) < (l.length : ℚ) + 1 := by positivity
      simp only [List.length_cons] at hlen
      push_cast at hlen
      linarith
  subst hnil
  simp [fitDenom, sumQ]

/-- The computed slope is the ordinary least-squares slope whenever the
denominator is nonzero. -/
lemma fitSlope_spec (xs ys : List ℚ) (hd : fitDenom xs ≠ 0) :
    fitSlope xs ys =
      ((xs.length : ℚ) * ((xs.zip ys).map fun q => q.1 * q.2).sum -
          xs.sum * ys.sum) /
        ((xs.length : ℚ) * (xs.map fun v => v * v).sum - xs.sum * xs.sum) := by
  simp only [fitSlope, if_neg hd]
  rw [sumProd_eq_sum, sumQ_eq_sum, sumQ_eq_sum, fitDenom, sumQ_eq_sum,
    sumQ_eq_sum]

/-- The computed intercept is the ordinary least-squares intercept whenever
the list is non-empty. -/
lemma fitIntercept_spec (xs ys : List ℚ) (hn : (xs.length : ℚ) ≠ 0) :
    fitIntercept xs ys =
      (ys.sum - fitSlope xs ys * xs.sum) / (xs.length : ℚ) := by
  simp only [fitIntercept, if_neg hn]
  rw [sumQ_eq_sum, sumQ_eq_sum]

/-- Indexing lemma for zone lists: the i-th zone of `zonesOf B` is the
clamped product of B with the i-th table multiplier. -/
lemma zonesOf_getD (B : ℚ) (i : ℕ) (hi : i < 9) :
    (zonesOf B).getD i 0 = max EPS (B * BAND_MULTIPLIERS.getD i 0) := by
  interval_cases i <;> rfl

/-- The stacked-layer row stores the 9 successive multiplier differences
times the baseline. -/
lemma stackLayer_bands_eq (ex : ℚ → ℚ) (a b t0 : ℚ) (p : PricePoint) :
    (LinStackLayer.mkRow ex a b t0 p).bands =
      [(LinStackLayer.mkRow ex a b t0 p).baseline * 0.25,
       (LinStackLayer.mkRow ex a b t0 p).baseline * 0.15,
       (LinStackLayer.mkRow ex a b t0 p).baseline * 0.25,
       (LinStackLayer.mkRow ex a b t0 p).baseline * 0.35,
       (LinStackLayer.mkRow ex a b t0 p).baseline * 0.6,
       (LinStackLayer.mkRow ex a b t0 p).baseline * 1,
       (LinStackLayer.mkRow ex a b t0 p).baseline * 1.6,
       (LinStackLayer.mkRow ex a b t0 p).baseline * 2.6,
       (LinStackLayer.mkRow ex a b t0 p).baseline * 4.2] := by
  have hr9 : List.range 9 = [0, 1, 2, 3, 4, 5, 6, 7, 8] := rfl
  norm_num [LinStackLayer.mkRow, BAND_MULTIPLIERS, hr9]

/-- Prefix sums of the layer differences telescope back to the baseline
times the i-th multiplier. -/
lemma layer_take_sum (B : ℚ) (i : ℕ) (hi : i < 9) :
    (([B * 0.25, B * 0.15, B * 0.25, B * 0.35, B * 0.6, B * 1, B * 1.6,
        B * 2.6, B * 4.2].take (i + 1)).sum) =
      B * BAND_MULTIPLIERS.getD i 0 := by
  interval_cases i <;> · norm_num [BAND_MULTIPLIERS]; try ring

/-- When the bottom zone product already clears EPS, so does every zone
product. -/
lemma eps_le_mult (B : ℚ) (i : ℕ) (hi : i < 9) (hpos : EPS ≤ B * 0.25) :
    EPS ≤ B * BAND_MULTIPLIERS.getD i 0 := by
  rw [show EPS = 1 / 1000000000 by norm_num [EPS]] at hpos ⊢
  have hB : 0 < B := by nlinarith
  interval_cases i <;> · norm_num [BAND_MULTIPLIERS]; nlinarith

/-- Taking the mapped prefix of an appended list returns the mapped list. -/
lemma take_map_append {α β : Type} (l : List α) (f : α → β) (l2 : List β) :
    ((l.map f) ++ l2).take l.length = l.map f := by
  have hl : (l.map f).length = l.length := List.length_map _ _
  rw [← hl, List.take_left]

/-- Dropping the mapped prefix of an appended list returns the tail list. -/
lemma drop_map_append {α β : Type} (l : List α) (f : α → β) (l2 : List β) :
    ((l.map f) ++ l2).drop l.length = l2 := by
  have hl : (l.map f).length = l.length := List.length_map _ _
  rw [← hl, List.drop_left]

/-- Taking the full length of a mapped list is the identity. -/
lemma take_map_self {α β : Type} (l : List α) (f : α → β) :
    (l.map f).take l.length = l.map f := by
  have hl : (l.map f).length = l.length := List.length_map _ _
  rw [← hl, List.take_length]

/-- Dropping the full length of a mapped list leaves nothing. -/
lemma drop_map_self {α β : Type} (l : List α) (f : α → β) :
    (l.map f).drop l.length = [] := by
  have hl : (l.map f).length = l.length := List.length_map _ _
  rw [← hl, List.drop_length]

/-- The extension loop visits exactly the daily timestamps up to the chart
end. -/
lemma extendTimestamps_getElem (i : ℕ) : ∀ t : ℚ,
    (PowInterval.extendTimestamps t)[i]? =
      if t + i * DAY_MS ≤ CHART_END_MS then some (t + i * DAY_MS)
      else none := by
  induction i with
  | zero =>
    intro t
    rw [PowInterval.extendTimestamps]
    by_cases h : t ≤ CHART_END_MS
    · rw [dif_pos h]
      simp [h]
    · rw [dif_neg h]
      simp [h]
  | succ i ih =>
    intro t
    rw [PowInterval.extendTimestamps]
    by_cases h : t ≤ CHART_END_MS
    · rw [dif_pos h]
      rw [List.getElem?_cons_succ, ih (t + DAY_MS)]
      have he : t + DAY_MS + (i : ℚ) * DAY_MS =
          t + ((i : ℕ) + 1 : ℚ) * DAY_MS := by
        ring
      rw [he]
      norm_num
    · rw [dif_neg h]
      have : ¬(t + ((i + 1 : ℕ) : ℚ) * DAY_MS ≤ CHART_END_MS) := by
        push_neg at h ⊢
        have hd : (0 : ℚ) < DAY_MS := by norm_num [DAY_MS]
        have hc : (0 : ℚ) ≤ (i : ℚ) * DAY_MS :=
          mul_nonneg (by positivity) (le_of_lt hd)
        push_cast
        nlinarith
      rw [if_neg this]
      simp

/-- C1: on a point list whose x values are not all equal, both regression
versions compute the ordinary least-squares slope and intercept on
(x, ln price) pairs, and every row's baseline is exp(a + b * x), with
x = days since the first timestamp in the log-linear version and
x = ln(days since the genesis block + 1) in the log-power version. -/
theorem C1_ols_regression_baseline (lg ex : ℚ → ℚ) (pts : List PricePoint)
    (hd1 : fitDenom (linXs (firstTs pts) pts) ≠ 0)
    (hd2 : fitDenom (powXs lg pts) ≠ 0) :
    (fitSlope (linXs (firstTs pts) pts) (logYs lg pts) =
      (((linXs (firstTs pts) pts).length : ℚ) *
          (((linXs (firstTs pts) pts).zip (logYs lg pts)).map
            fun q => q.1 * q.2).sum -
        (linXs (firstTs pts) pts).sum * (logYs lg pts).sum) /
      (((linXs (firstTs pts) pts).length : ℚ) *
          ((linXs (firstTs pts) pts).map fun v => v * v).sum -
        (linXs (firstTs pts) pts).sum * (linXs (firstTs pts) pts).sum)) ∧
    (fitIntercept (linXs (firstTs pts) pts) (logYs lg pts) =
      ((logYs lg pts).sum -
          fitSlope (linXs (firstTs pts) pts) (logYs lg pts) *
            (linXs (firstTs pts) pts).sum) /
        ((linXs (firstTs pts) pts).length : ℚ)) ∧
    (fitSlope (powXs lg pts) (logYs lg pts) =
      (((powXs lg pts).length : ℚ) *
          (((powXs lg pts).zip (logYs lg pts)).map fun q => q.1 * q.2).sum -
        (powXs lg pts).sum * (logYs lg pts).sum) /
      (((powXs lg pts).length : ℚ) *
          ((powXs lg pts).map fun v => v * v).sum -
        (powXs lg pts).sum * (powXs lg pts).sum)) ∧
    (fitIntercept (powXs lg pts) (logYs lg pts) =
      ((logYs lg pts).sum -
          fitSlope (powXs lg pts) (logYs lg pts) * (powXs lg pts).sum) /
        ((powXs lg pts).length : ℚ)) ∧
    ((LinInterval.mergedRows lg ex pts).map (fun r => r.baseline) =
      pts.map fun p =>
        ex (fitIntercept (linXs (firstTs pts) pts) (logYs lg pts) +
          fitSlope (linXs (firstTs pts) pts) (logYs lg pts) *
            ((p.ts - firstTs pts) / DAY_MS))) ∧
    ((PowInterval.mergedHist lg ex pts).map (fun r => r.baseline) =
      pts.map fun p =>
        ex (fitIntercept (powXs lg pts) (logYs lg pts) +
          fitSlope (powXs lg pts) (logYs lg pts) *
            lg (max 0 ((p.ts - BITCOIN_GENESIS_MS) / DAY_MS) + 1))) := by
  refine ⟨fitSlope_spec _ _ hd1,
    fitIntercept_spec _ _ (fitDenom_ne_imp_len _ hd1),
    fitSlope_spec _ _ hd2,
    fitIntercept_spec _ _ (fitDenom_ne_imp_len _ hd2), ?_, ?_⟩
  · simp [LinInterval.mergedRows, LinInterval.mkRow, List.map_map,
      Function.comp]
  · simp [PowInterval.mergedHist, PowInterval.buildRow, powX, List.map_map,
      Function.comp]

/-- Witness for C1 on two points one day apart shortly after the genesis
block, where both regression denominators are nonzero. -/
theorem C1_ols_regression_baseline_witness :
    fitDenom (linXs
      (firstTs ([⟨1231027200000, 1⟩, ⟨1231113600000, 2⟩] : List PricePoint))
      ([⟨1231027200000, 1⟩, ⟨1231113600000, 2⟩] : List PricePoint)) ≠ 0 ∧
    fitDenom (powXs id
      ([⟨1231027200000, 1⟩, ⟨1231113600000, 2⟩] : List PricePoint)) ≠ 0 ∧
    fitSlope
      (linXs
        (firstTs ([⟨1231027200000, 1⟩, ⟨1231113600000, 2⟩] : List PricePoint))
        ([⟨1231027200000, 1⟩, ⟨1231113600000, 2⟩] : List PricePoint))
      (logYs id ([⟨1231027200000, 1⟩, ⟨1231113600000, 2⟩] : List PricePoint)) =
      (((linXs
          (firstTs
            ([⟨1231027200000, 1⟩, ⟨1231113600000, 2⟩] : List PricePoint))
          ([⟨1231027200000, 1⟩, ⟨1231113600000, 2⟩] : List PricePoint)).length :
            ℚ) *
          (((linXs
              (firstTs
                ([⟨1231027200000, 1⟩, ⟨1231113600000, 2⟩] : List PricePoint))
              ([⟨1231027200000, 1⟩, ⟨1231113600000, 2⟩] :
                List PricePoint)).zip
            (logYs id
              ([⟨1231027200000, 1⟩, ⟨1231113600000, 2⟩] :
                List PricePoint))).map fun q => q.1 * q.2).sum -
        (linXs
            (firstTs
              ([⟨1231027200000, 1⟩, ⟨1231113600000, 2⟩] : List PricePoint))
            ([⟨1231027200000, 1⟩, ⟨1231113600000, 2⟩] :
              List PricePoint)).sum *
          (logYs id
            ([⟨1231027200000, 1⟩, ⟨1231113600000, 2⟩] :
              List PricePoint)).sum) /
      (((linXs
          (firstTs
            ([⟨1231027200000, 1⟩, ⟨1231113600000, 2⟩] : List PricePoint))
          ([⟨1231027200000, 1⟩, ⟨1231113600000, 2⟩] : List PricePoint)).length :
            ℚ) *
          ((linXs
              (firstTs
                ([⟨1231027200000, 1⟩, ⟨1231113600000, 2⟩] : List PricePoint))
              ([⟨1231027200000, 1⟩, ⟨1231113600000, 2⟩] :
                List PricePoint)).map fun v => v * v).sum -
        (linXs
            (firstTs
              ([⟨1231027200000, 1⟩, ⟨1231113600000, 2⟩] : List PricePoint))
            ([⟨1231027200000, 1⟩, ⟨1231113600000, 2⟩] :
              List PricePoint)).sum *
          (linXs
            (firstTs
              ([⟨1231027200000, 1⟩, ⟨1231113600000, 2⟩] : List PricePoint))
            ([⟨1231027200000, 1⟩, ⟨1231113600000, 2⟩] :
              List PricePoint)).sum) :=
  ⟨by norm_num [fitDenom, linXs, firstTs, sumQ, DAY_MS],
    by norm_num [fitDenom, powXs, powX, sumQ, DAY_MS, genesis_ms_eval,
      max_def],
    (C1_ols_regression_baseline id id
      ([⟨1231027200000, 1⟩, ⟨1231113600000, 2⟩] : List PricePoint)
      (by norm_num [fitDenom, linXs, firstTs, sumQ, DAY_MS])
      (by norm_num [fitDenom, powXs, powX, sumQ, DAY_MS, genesis_ms_eval,
        max_def])).1⟩

/-- Counterexample to C2 as stated: with exp and log modelled by the
identity, the final version's pipeline on the single point
(ts 1231027200000, one day after the genesis block, price 1) passes the
no-price-data guard, fits (a, b) = (1, 0), and produces a row with
baseline 1 whose top band's upper bound is 14.85 = 11.0 * 1.35 — neither
EPS nor `max(EPS, baseline * m)` for any multiplier m of the fixed
table. -/
theorem C2_counterexample :
    noPriceData ([⟨1231027200000, 1⟩] : List PricePoint) = false ∧
    PowInterval.mergedHist id id ([⟨1231027200000, 1⟩] : List PricePoint) =
      [PowInterval.buildRow id id 1 0 1231027200000 (some 1)] ∧
    (PowInterval.buildRow id id 1 0 1231027200000 (some 1)).baseline = 1 ∧
    (PowInterval.buildRow id id 1 0 1231027200000 (some 1)).bands.getD 8
      (0, 0) = (11, 14.85) ∧
    EPS ≠ 14.85 ∧
    ∀ m ∈ BAND_MULTIPLIERS,
      max EPS
        ((PowInterval.buildRow id id 1 0 1231027200000 (some 1)).baseline *
          m) ≠ 14.85 := by
  refine ⟨?_, ?_, ?_⟩
  · norm_num [noPriceData]
  · norm_num [PowInterval.mergedHist, fitSlope, fitIntercept, fitDenom, sumQ,
      sumProd, powXs, powX, logYs, DAY_MS, genesis_ms_eval, max_def]
  · norm_num [PowInterval.buildRow, powX, zonesOf, BAND_MULTIPLIERS, EPS]

/-- C2 (amended): in the interval versions every zone is the baseline times
the corresponding table multiplier clamped below at EPS; the first interval
version's band i is [zone_(i-1), zone_i] with EPS as the bottom limit; the
final version's band i is [zone_i, zone_(i+1)] except the topmost band,
whose upper bound is its lower bound times 1.35 (clamped); the
absolute-band version stores baseline times multiplier unclamped. -/
theorem C2_bands_from_table (lg ex : ℚ → ℚ) (a b t0 tsMs : ℚ)
    (p : PricePoint) (pr : Option ℚ) :
    ((LinInterval.mkRow ex a b t0 p).zones =
      (List.range 9).map (zoneSpec (LinInterval.mkRow ex a b t0 p).baseline)) ∧
    ((LinInterval.mkRow ex a b t0 p).bands =
      (List.range 9).map fun i =>
        ((if i = 0 then EPS
          else zoneSpec (LinInterval.mkRow ex a b t0 p).baseline (i - 1)),
          zoneSpec (LinInterval.mkRow ex a b t0 p).baseline i)) ∧
    ((PowInterval.buildRow lg ex a b tsMs pr).zones =
      (List.range 9).map
        (zoneSpec (PowInterval.buildRow lg ex a b tsMs pr).baseline)) ∧
    ((PowInterval.buildRow lg ex a b tsMs pr).bands =
      ((List.range 8).map fun i =>
        (zoneSpec (PowInterval.buildRow lg ex a b tsMs pr).baseline i,
          zoneSpec (PowInterval.buildRow lg ex a b tsMs pr).baseline (i + 1))) ++
        [(zoneSpec (PowInterval.buildRow lg ex a b tsMs pr).baseline 8,
          max EPS
            (zoneSpec (PowInterval.buildRow lg ex a b tsMs pr).baseline 8 *
              1.35))]) ∧
    ((LinStackAbs.mkRow ex a b t0 p).bands =
      BAND_MULTIPLIERS.map fun m => (LinStackAbs.mkRow ex a b t0 p).baseline * m) := by
  have hmax : ∀ z : ℚ, max EPS (max EPS z) = max EPS z := fun z => by
    rw [← max_assoc, max_self]
  have hr9 : List.range 9 = [0, 1, 2, 3, 4, 5, 6, 7, 8] := rfl
  have hr8 : List.range 8 = [0, 1, 2, 3, 4, 5, 6, 7] := rfl
  refine ⟨?_, ?_, ?_, ?_, ?_⟩
  · simp [LinInterval.mkRow, zonesOf, zoneSpec, BAND_MULTIPLIERS, hr9]
  · simp [LinInterval.mkRow, zonesOf, zoneSpec, BAND_MULTIPLIERS, hmax, hr9,
      max_self]
  · simp [PowInterval.buildRow, zonesOf, zoneSpec, BAND_MULTIPLIERS, hr9]
  · simp [PowInterval.buildRow, zonesOf, zoneSpec, BAND_MULTIPLIERS, hmax,
      hr8, hr9]
  · simp [LinStackAbs.mkRow]

/-- Counterexample to C4 as stated: on the single accepted point
(ts 86400000, price EPS) both log-linear pipelines fit (a, b) = (EPS, 0),
so the row's baseline is EPS and the epsilon clamp binds: the stacked
version's first cumulative sum is EPS * 0.25, while the interval version
stores zone_0 = EPS, and the two differ. -/
theorem C4_counterexample :
    noPriceData ([⟨86400000, EPS⟩] : List PricePoint) = false ∧
    ((LinInterval.mergedRows id id
        ([⟨86400000, EPS⟩] : List PricePoint)).headD
        ⟨"", none, 0, [], []⟩).baseline = EPS ∧
    (((LinStackLayer.mergedRows id id
        ([⟨86400000, EPS⟩] : List PricePoint)).headD
        ⟨"", none, 0, []⟩).bands.take 1).sum = EPS * 0.25 ∧
    ((LinInterval.mergedRows id id
        ([⟨86400000, EPS⟩] : List PricePoint)).headD
        ⟨"", none, 0, [], []⟩).zones.getD 0 0 = EPS ∧
    EPS * 0.25 ≠ EPS := by
  have hr9 : List.range 9 = [0, 1, 2, 3, 4, 5, 6, 7, 8] := rfl
  norm_num [noPriceData, LinStackLayer.mergedRows, LinStackLayer.mkRow,
    LinInterval.mergedRows, LinInterval.mkRow, fitSlope, fitIntercept,
    fitDenom, sumQ, sumProd, linXs, logYs, firstTs, zonesOf,
    BAND_MULTIPLIERS, EPS, DAY_MS, max_def, hr9]

/-- C4 (amended): for rows built from the same point, fit and first
timestamp, the cumulative sum of the stacked version's layers
band_0..band_i equals baseline * multiplier_i, which is the interval
version's stored zone bound whenever the bottom zone product
baseline * 0.25 clears EPS (when the clamp binds the interval version
stores EPS instead), and the two versions compute identical baselines over
a whole point list. -/
theorem C4_stacked_interval_equiv (lg ex : ℚ → ℚ) (a b t0 : ℚ)
    (p : PricePoint) (pts : List PricePoint) (i : ℕ) (hi : i < 9)
    (hpos : EPS ≤ (LinInterval.mkRow ex a b t0 p).baseline * 0.25) :
    (((LinStackLayer.mkRow ex a b t0 p).bands.take (i + 1)).sum =
      (LinInterval.mkRow ex a b t0 p).baseline * BAND_MULTIPLIERS.getD i 0) ∧
    (((LinStackLayer.mkRow ex a b t0 p).bands.take (i + 1)).sum =
      (LinInterval.mkRow ex a b t0 p).zones.getD i 0) ∧
    ((LinStackLayer.mergedRows lg ex pts).map (fun r => r.baseline) =
      (LinInterval.mergedRows lg ex pts).map fun r => r.baseline) := by
  have hsum : ((LinStackLayer.mkRow ex a b t0 p).bands.take (i + 1)).sum =
      (LinInterval.mkRow ex a b t0 p).baseline * BAND_MULTIPLIERS.getD i 0 := by
    rw [stackLayer_bands_eq]
    exact layer_take_sum _ i hi
  refine ⟨hsum, ?_, ?_⟩
  · rw [hsum,
      show (LinInterval.mkRow ex a b t0 p).zones =
        zonesOf (LinInterval.mkRow ex a b t0 p).baseline from rfl,
      zonesOf_getD _ i hi, max_eq_right (eps_le_mult _ i hi hpos)]
  · simp [LinStackLayer.mergedRows, LinInterval.mergedRows,
      LinStackLayer.mkRow, LinInterval.mkRow, List.map_map, Function.comp]

/-- Witness for C4 with the constant function 1 as exp: the hypotheses hold
at band index 3 and the cumulative layer sum equals the multiplier 1.0
times the baseline. -/
theorem C4_stacked_interval_equiv_witness :
    (3 : ℕ) < 9 ∧
    EPS ≤ (LinInterval.mkRow (fun _ => 1) 0 0 0 ⟨0, 1⟩).baseline * 0.25 ∧
    (((LinStackLayer.mkRow (fun _ => 1) 0 0 0 ⟨0, 1⟩).bands.take 4).sum =
      (LinInterval.mkRow (fun _ => 1) 0 0 0 ⟨0, 1⟩).baseline *
        BAND_MULTIPLIERS.getD 3 0) :=
  ⟨by norm_num,
    by norm_num [LinInterval.mkRow, EPS],
    (C4_stacked_interval_equiv id (fun _ => 1) 0 0 0 ⟨0, 1⟩ [] 3 (by norm_num)
      (by norm_num [LinInterval.mkRow, EPS])).1⟩

/-- Witness for C8 at a negative baseline: with the constant function -3 as
exp, the bottom zone and the bottom band of both versions are still at
least EPS. -/
theorem C8_log_axis_safety_witness :
    EPS ∈ (LinInterval.mkRow (fun _ => -3) 0 0 0 ⟨0, 1⟩).zones ∧
    EPS ≤ EPS :=
  ⟨by norm_num [LinInterval.mkRow, zonesOf, BAND_MULTIPLIERS, EPS],
    (C8_log_axis_safety (fun _ => -3) (fun _ => -3) 0 0 0 0 ⟨0, 1⟩ none).1 EPS
      (by norm_num [LinInterval.mkRow, zonesOf, BAND_MULTIPLIERS, EPS])⟩

/-- C10: the final version appends one synthetic price-less row per day
after the last historical row, for exactly the daily timestamps up to
2028-01-01; the topmost band's upper bound is 1.35 times its lower bound
(clamped); and the displayed rows are exactly those whose date is on or
after 2012-01-01, kept in order. -/
theorem C10_final_version_extension (lg ex : ℚ → ℚ) (pts : List PricePoint)
    (a b tsMs : ℚ) (pr : Option ℚ) (rows : List IntervalRow)
    (r : IntervalRow) :
    (∀ (t : ℚ) (i : ℕ),
      (PowInterval.extendTimestamps t)[i]? =
        if t + i * DAY_MS ≤ CHART_END_MS then some (t + i * DAY_MS)
        else none) ∧
    ((PowInterval.mergedAll lg ex pts).take pts.length =
      PowInterval.mergedHist lg ex pts) ∧
    (∀ s ∈ (PowInterval.mergedAll lg ex pts).drop pts.length,
      s.price = none) ∧
    (((pts.getLast?).map fun p => p.ts).getD (firstTs pts) < CHART_END_MS →
      (PowInterval.mergedAll lg ex pts).drop pts.length =
        (PowInterval.extendTimestamps
          (((pts.getLast?).map fun p => p.ts).getD (firstTs pts) +
            DAY_MS)).map
          fun t => PowInterval.buildRow lg ex
            (fitIntercept (powXs lg pts) (logYs lg pts))
            (fitSlope (powXs lg pts) (logYs lg pts)) t none) ∧
    ((PowInterval.buildRow lg ex a b tsMs pr).bands.getD 8 (0, 0) =
      ((PowInterval.buildRow lg ex a b tsMs pr).zones.getD 8 0,
        max EPS
          ((PowInterval.buildRow lg ex a b tsMs pr).zones.getD 8 0 *
            1.35))) ∧
    (PowInterval.allRows rows).Sublist rows ∧
    (r ∈ PowInterval.allRows rows ↔
      r ∈ rows ∧ CHART_START_DATE ≤ r.date) := by
  refine ⟨fun t i => extendTimestamps_getElem i t, ?_, ?_, ?_, ?_, ?_, ?_⟩
  · simp only [PowInterval.mergedAll, PowInterval.mergedHist]
    split
    · exact take_map_append _ _ _
    · exact take_map_self _ _
  · simp only [PowInterval.mergedAll]
    split
    · rw [drop_map_append]
      intro s hs
      simp only [List.mem_map] at hs
      obtain ⟨t, _, rfl⟩ := hs
      rfl
    · rw [drop_map_self]
      intro s hs
      simp at hs
  · intro hlast
    simp only [PowInterval.mergedAll]
    rw [if_pos hlast, drop_map_append]
  · have hmax : ∀ z : ℚ, max EPS (max EPS z) = max EPS z := fun z => by
      rw [← max_assoc, max_self]
    have hr8 : List.range 8 = [0, 1, 2, 3, 4, 5, 6, 7] := rfl
    simp [PowInterval.buildRow, zonesOf, BAND_MULTIPLIERS, hr8, hmax]
  · exact List.filter_sublist _
  · simp [PowInterval.allRows, List.mem_filter]

/-- Witness for C10 at a single historical point one day before the chart
end: the last timestamp precedes 2028-01-01, so the appended rows are the
mapped extension timestamps. -/
theorem C10_final_version_extension_witness :
    ((([⟨1830211200000, 1⟩] : List PricePoint).getLast?).map
        fun p => p.ts).getD
        (firstTs ([⟨1830211200000, 1⟩] : List PricePoint)) < CHART_END_MS ∧
    ((PowInterval.mergedAll id id
        ([⟨1830211200000, 1⟩] : List PricePoint)).drop
        ([⟨1830211200000, 1⟩] : List PricePoint).length =
      (PowInterval.extendTimestamps
        (((([⟨1830211200000, 1⟩] : List PricePoint).getLast?).map
            fun p => p.ts).getD
            (firstTs ([⟨1830211200000, 1⟩] : List PricePoint)) +
          DAY_MS)).map
        fun t => PowInterval.buildRow id id
          (fitIntercept (powXs id ([⟨1830211200000, 1⟩] : List PricePoint))
            (logYs id ([⟨1830211200000, 1⟩] : List PricePoint)))
          (fitSlope (powXs id ([⟨1830211200000, 1⟩] : List PricePoint))
            (logYs id ([⟨1830211200000, 1⟩] : List PricePoint))) t none) :=
  ⟨by
      simp only [List.getLast?_singleton, Option.map_some', Option.getD_some]
      rw [chart_end_eval]
      norm_num,
    (C10_final_version_extension id id
      ([⟨1830211200000, 1⟩] : List PricePoint) 0 0 0 none []
      ⟨"", none, 0, [], []⟩).2.2.2.1
      (by
        simp only [List.getLast?_singleton, Option.map_some', Option.getD_some]
        rw [chart_end_eval]
        norm_num)⟩

end Rainbow
